import Mathlib

/-
Verification of the SatGym satellite-routing environment.

This file shallowly embeds the two core modules of the repository:
  - satgym/simulators/satellite_simulator.py  (SatelliteSimulator)
  - satgym/envs/routing_env.py                (RoutingEnv)
Python machine floats are modelled as real numbers; Python list indexing
(which accepts negative indices and raises IndexError when out of range)
is modelled by an Option-valued accessor; methods that can raise are
Option-valued.  External collaborators (the numpy seeded generator, the
gymnasium reseeding contract, and the StarPerf satellite-to-user distance)
are modelled from the specification where noted.
-/

namespace SatGym

/-- Python list indexing `l[i]`: a non-negative index selects from the
front, a negative index selects from the end (`l[len + i]`), and an
out-of-range index raises `IndexError`, modelled as `none`. -/
def pyGet {α : Type} (l : List α) (i : Int) : Option α :=
  if 0 ≤ i then l.get? i.toNat
  else if 0 ≤ i + l.length then l.get? (i + (l.length : Int)).toNat
  else none

/-- Altitude of a satellite as stored by StarPerf: either a per-timestep
series or a single scalar (`satellite_simulator.py` line 127 branches on
`isinstance(sat.altitude, list)`). -/
inductive AltData : Type
  | scalar (a : ℝ)
  | series (l : List ℝ)

/-- An inter-satellite-link record with the ids of its two endpoints
(StarPerf ISL entity as consumed by `_build_network_graph`). -/
structure ISLLink : Type where
  satellite1 : Int
  satellite2 : Int

/-- A satellite as consumed by the simulator: stable integer id,
per-timestep longitude and latitude series (degrees), altitude data and
the optional list of ISL records (`hasattr(current_sat, 'ISL')` is
modelled by `Option`). -/
structure Satellite : Type where
  id : Int
  longitude : List ℝ
  latitude : List ℝ
  altitude : AltData
  isl : Option (List ISLLink)

/-- The `SatelliteSimulator` state that the claims depend on:
`sat_id_map` in insertion order and `simulation_steps`
(`len(sample_sat.longitude)` in `__init__`). -/
structure Simulator : Type where
  satIdMap : List (Int × Satellite)
  simulationSteps : Int

/-- Python dict lookup `self.sat_id_map[sat_id]`; `none` models KeyError. -/
def lookupSat (sim : Simulator) (satId : Int) : Option Satellite :=
  (sim.satIdMap.find? (fun p => p.1 = satId)).map Prod.snd

/-- `SatelliteSimulator.get_satellite_position`: index
`min(time_step, simulation_steps) - 1` into the longitude/latitude
(and possibly altitude) series, returning `[lon, lat, alt]`. -/
def getSatellitePosition (sim : Simulator) (sat : Satellite) (timeStep : Int) :
    Option (ℝ × ℝ × ℝ) :=
  let safeIdx := min timeStep sim.simulationSteps - 1
  (pyGet sat.longitude safeIdx).bind fun lon =>
  (pyGet sat.latitude safeIdx).bind fun lat =>
  (match sat.altitude with
   | AltData.series l => pyGet l safeIdx
   | AltData.scalar a => some a).map fun alt => (lon, lat, alt)

/-- `np.radians`: degrees to radians. -/
noncomputable def radians (x : ℝ) : ℝ := x * Real.pi / 180

/-- `SatelliteSimulator._distance_between_sats`: haversine formula on the
two satellites' (longitude, latitude) at the clamped index, scaled by the
constant 6731 that appears in the source (its inline comment says the
Earth radius is about 6371 km). -/
noncomputable def distanceBetweenSats (sim : Simulator) (sat1 sat2 : Satellite)
    (timeStep : Int) : Option ℝ :=
  let safeIdx := min timeStep sim.simulationSteps - 1
  (pyGet sat1.longitude safeIdx).bind fun lon1d =>
  (pyGet sat1.latitude safeIdx).bind fun lat1d =>
  (pyGet sat2.longitude safeIdx).bind fun lon2d =>
  (pyGet sat2.latitude safeIdx).map fun lat2d =>
    let lon1 := radians lon1d
    let lat1 := radians lat1d
    let lon2 := radians lon2d
    let lat2 := radians lat2d
    let dlon := lon2 - lon1
    let dlat := lat2 - lat1
    let a := Real.sin (dlat / 2) ^ 2 +
      Real.cos lat1 * Real.cos lat2 * Real.sin (dlon / 2) ^ 2
    let c := 2 * Real.arcsin (Real.sqrt a)
    6731 * c

/-- Modelled from the spec: the haversine great-circle distance between
two (longitude, latitude) pairs in degrees with the canonical Earth
radius constant R = 6371 km, which the spec declares authoritative. -/
noncomputable def haversineDistanceSpec (lon1d lat1d lon2d lat2d : ℝ) : ℝ :=
  let lon1 := radians lon1d
  let lat1 := radians lat1d
  let lon2 := radians lon2d
  let lat2 := radians lat2d
  let dlon := lon2 - lon1
  let dlat := lat2 - lat1
  let a := Real.sin (dlat / 2) ^ 2 +
    Real.cos lat1 * Real.cos lat2 * Real.sin (dlon / 2) ^ 2
  let c := 2 * Real.arcsin (Real.sqrt a)
  6371 * c

/-- A networkx `Graph` as used by the builder: the node list (all
satellite ids) and the edge list in insertion order, each edge carrying
its `delay` attribute. -/
structure Graph : Type where
  nodes : List Int
  edges : List (Int × Int × ℝ)

/-- networkx `add_edge`: if the (undirected) edge already exists its
attribute is updated in place, otherwise the edge is appended. -/
def addEdge (es : List (Int × Int × ℝ)) (u v : Int) (w : ℝ) :
    List (Int × Int × ℝ) :=
  match es with
  | [] => [(u, v, w)]
  | (a, b, x) :: rest =>
    if (a = u ∧ b = v) ∨ (a = v ∧ b = u) then (a, b, w) :: rest
    else (a, b, x) :: addEdge rest u v w

/-- networkx `graph.neighbors(u)`: the neighbors of `u` in the order the
incident edges were inserted. -/
def neighborsOf (g : Graph) (u : Int) : List Int :=
  g.edges.filterMap fun e =>
    if e.1 = u then some e.2.1 else if e.2.1 = u then some e.1 else none

/-- `SatelliteSimulator._build_network_graph`: add every satellite id as
a node, then for every satellite with an ISL attribute and every link,
take the opposite endpoint as the neighbor, process each undirected pair
once (`sat_id < neighbor_id`), and insert an edge weighted by
haversine distance divided by the speed of light 299792.458 km/s.
`none` models an exception escaping the build (index or key error). -/
noncomputable def buildNetworkGraph (sim : Simulator) (timeStep : Int) :
    Option Graph :=
  let nodes := sim.satIdMap.map Prod.fst
  let edges : Option (List (Int × Int × ℝ)) :=
    sim.satIdMap.foldl
      (fun acc p =>
        acc.bind fun es =>
          match p.2.isl with
          | none => some es
          | some links =>
            links.foldl
              (fun acc2 link =>
                acc2.bind fun es2 =>
                  let neighborId :=
                    if link.satellite1 = p.1 then link.satellite2
                    else link.satellite1
                  if p.1 < neighborId then
                    (lookupSat sim neighborId).bind fun nb =>
                    (distanceBetweenSats sim p.2 nb timeStep).map fun dist =>
                      addEdge es2 p.1 neighborId (dist / 299792.458)
                  else some es2)
              (some es))
      (some [])
  edges.map fun es => { nodes := nodes, edges := es }

/-- The mutable part of the simulator: the lazily populated per-timestep
graph cache `_graph_cache` (a Python insertion-ordered dict). -/
structure SimState : Type where
  sim : Simulator
  graphCache : List (Int × Graph)

/-- Lookup `time_step in self._graph_cache`. -/
def cacheLookup (c : List (Int × Graph)) (t : Int) : Option Graph :=
  (c.find? (fun p => p.1 = t)).map Prod.snd

/-- `SatelliteSimulator.get_network_graph`: return the cached graph for
the raw `time_step` key, otherwise build it, insert it into the cache
under that key, and return it together with the updated cache. -/
noncomputable def getNetworkGraph (st : SimState) (t : Int) :
    Option (Graph × SimState) :=
  match cacheLookup st.graphCache t with
  | some g => some (g, st)
  | none =>
    (buildNetworkGraph st.sim t).map fun g =>
      (g, { st with graphCache := st.graphCache ++ [(t, g)] })

/-- The configuration keys of `RoutingEnv` that `step` reads (defaults:
`max_hops = 50`, `reward_success = 100`, `reward_failure = -100`,
`reward_per_hop = -1`, `distance_reward_factor = 1000`). -/
structure EnvConfig : Type where
  maxHops : Int
  rewardSuccess : ℝ
  rewardFailure : ℝ
  rewardPerHop : ℝ
  distanceRewardFactor : ℝ

/-- The mutable episode state of `RoutingEnv`: the backend simulator
(with its graph cache), the current and target satellites, and the
1-based `time_step` and `hop_count` counters.  `max_simulation_steps`
equals `simState.sim.simulationSteps` as set in `__init__`. -/
structure EnvState : Type where
  simState : SimState
  currentSat : Satellite
  targetSat : Satellite
  timeStep : Int
  hopCount : Int

/-- What a `step` call returns (observation and info omitted):
the scalar reward, the two episode flags and the successor state. -/
structure StepOut : Type where
  reward : ℝ
  terminated : Bool
  truncated : Bool
  state : EnvState

/-- The tail of `RoutingEnv.step`: advance `time_step`, compute
`truncated = time_step > max_simulation_steps`, and force
`terminated = False` whenever `truncated` holds. -/
def finishStep (st : EnvState) (simState2 : SimState) (cur : Satellite)
    (hop : Int) (reward : ℝ) (terminated : Bool) : StepOut :=
  let t2 := st.timeStep + 1
  let truncated := decide (st.simState.sim.simulationSteps < t2)
  { reward := reward
    terminated := if truncated then false else terminated
    truncated := truncated
    state := { simState := simState2, currentSat := cur,
               targetSat := st.targetSat, timeStep := t2, hopCount := hop } }

/-- The success/exhaustion verdict of `RoutingEnv.step` (lines 102-109):
reaching the target applies `reward_success` and terminates, otherwise
`hop_count >= max_hops` applies `reward_failure` and terminates. -/
def applyVerdict (cfg : EnvConfig) (targetId : Int) (hop : Int)
    (newSatId : Int) (reward1 : ℝ) : ℝ × Bool :=
  if newSatId = targetId then (reward1 + cfg.rewardSuccess, true)
  else if cfg.maxHops ≤ hop then (reward1 + cfg.rewardFailure, true)
  else (reward1, false)

/-- Euclidean norm of the difference of two (lon, lat, alt) vectors,
`np.linalg.norm(pos_target - pos_current)`. -/
noncomputable def euclid (a b : ℝ × ℝ × ℝ) : ℝ :=
  Real.sqrt ((a.1 - b.1) ^ 2 + (a.2.1 - b.2.1) ^ 2 + (a.2.2 - b.2.2) ^ 2)

/-- `RoutingEnv.step`.  The action comes from the declared
`Discrete(MAX_NEIGHBORS)` space, hence a natural number.  Mirrors the
source order: increment `hop_count`; clamp the time step; read the two
positions; fetch (and possibly cache) the graph; list the current
satellite's neighbors; branch on action validity; apply the verdict
checks; advance `time_step` and apply the truncation override.
`none` models an exception escaping the call. -/
noncomputable def step (cfg : EnvConfig) (st : EnvState) (action : Nat) :
    Option StepOut :=
  let hop := st.hopCount + 1
  let safeT := min st.timeStep st.simState.sim.simulationSteps
  (getSatellitePosition st.simState.sim st.currentSat safeT).bind fun posCur =>
  (getSatellitePosition st.simState.sim st.targetSat safeT).bind fun posTgt =>
  (getNetworkGraph st.simState safeT).bind fun gs =>
  let neighbors := neighborsOf gs.1 st.currentSat.id
  if action < neighbors.length then
    (neighbors.get? action).bind fun nextSatId =>
    (lookupSat st.simState.sim nextSatId).bind fun newSat =>
    (getSatellitePosition st.simState.sim newSat safeT).bind fun posAfter =>
    let distBefore := euclid posTgt posCur
    let distAfter := euclid posTgt posAfter
    let reward1 := cfg.rewardPerHop +
      (distBefore - distAfter) / cfg.distanceRewardFactor
    let rt := applyVerdict cfg st.targetSat.id hop newSat.id reward1
    some (finishStep st gs.2 newSat hop rt.1 rt.2)
  else
    some (finishStep st gs.2 st.currentSat hop
      (cfg.rewardPerHop + cfg.rewardFailure) true)

/-- A ground user as constructed in `_setup_ground_stations`:
`User(latitude, longitude, name)`. -/
structure GroundUser : Type where
  latitude : ℝ
  longitude : ℝ
  userName : String

/-- The fixed ground-station catalog of `RoutingEnv._setup_ground_stations`. -/
def groundStations : List GroundUser :=
  [⟨51.5, -0.1, "London"⟩, ⟨40.7, -74.0, "NewYork"⟩,
   ⟨1.35, 103.8, "Singapore"⟩, ⟨-33.8, 151.2, "Sydney"⟩]

/-- Modelled from the spec: the state of the numpy seeded generator
`self.np_random` is deterministic data; reseeding replaces it. -/
structure Rng : Type where
  state : Nat

/-- Modelled from the spec: gymnasium reseeding installs a generator
whose state is a pure function of the seed. -/
def seedRng (seed : Nat) : Rng := ⟨seed⟩

/-- Modelled from the spec: `np_random.choice(catalog, 2, replace=False)`
draws two distinct indices below `n` without replacement, uniformly in
the generator state and deterministically for a fixed state; fewer than
two items raises. -/
def npRandomChoice2 (r : Rng) (n : Nat) : Option (Nat × Nat × Rng) :=
  if n < 2 then none
  else
    let i := r.state % n
    let j0 := (r.state / n) % (n - 1)
    let j := if j0 < i then j0 else j0 + 1
    some (i, j, ⟨r.state / (n * (n - 1))⟩)

/-- Modelled from the spec: StarPerf's
`distance_between_satellite_and_user` — the geometric great-circle
distance between the ground endpoint and the satellite position at
timestep `t` supplied by the positional model (Earth radius 6371 km);
out-of-range steps read the last recorded position. -/
noncomputable def distanceSatUser (u : GroundUser) (sat : Satellite)
    (t : Int) : ℝ :=
  let lon := ((pyGet sat.longitude (t - 1)).getD (sat.longitude.getLastD 0))
  let lat := ((pyGet sat.latitude (t - 1)).getD (sat.latitude.getLastD 0))
  haversineDistanceSpec u.longitude u.latitude lon lat

/-- `SatelliteSimulator.find_nearest_satellite`: Python `min` over the
satellites in `sat_id_map` insertion order keyed by the user distance,
keeping the first minimal element; an empty population raises. -/
noncomputable def findNearestSatellite (sim : Simulator) (u : GroundUser)
    (t : Int) : Option Satellite :=
  match sim.satIdMap.map Prod.snd with
  | [] => none
  | s :: rest =>
    some (rest.foldl
      (fun acc x => if distanceSatUser u x t < distanceSatUser u acc t then x
        else acc) s)

/-- What `RoutingEnv.reset` establishes: the drawn endpoint indices and
users, the located start/target satellites, the reset counters and the
post-draw generator. -/
structure ResetOut : Type where
  sourceIdx : Nat
  targetIdx : Nat
  sourceUser : GroundUser
  targetUser : GroundUser
  startSat : Satellite
  targetSat : Satellite
  currentSat : Satellite
  timeStep : Int
  hopCount : Int
  rng : Rng

/-- `RoutingEnv.reset`: reseed when a seed is supplied (gymnasium
`super().reset(seed=seed)`), set `time_step = 1` and `hop_count = 0`,
draw two distinct ground endpoints without replacement, locate the
nearest satellite to each at `time_step = 1`, and set
`current = start`.  The return value carries no reward and no
terminated/truncated flag.  `none` models an exception escaping. -/
noncomputable def resetEnv (sim : Simulator) (r : Rng) (seed : Option Nat) :
    Option ResetOut :=
  let r1 := match seed with
    | some s => seedRng s
    | none => r
  (npRandomChoice2 r1 groundStations.length).bind fun d =>
  (groundStations.get? d.1).bind fun su =>
  (groundStations.get? d.2.1).bind fun tu =>
  (findNearestSatellite sim su 1).bind fun ss =>
  (findNearestSatellite sim tu 1).map fun ts =>
    { sourceIdx := d.1, targetIdx := d.2.1, sourceUser := su,
      targetUser := tu, startSat := ss, targetSat := ts, currentSat := ss,
      timeStep := 1, hopCount := 0, rng := d.2.2 }

/-! Concrete instances used to exercise the definitions. -/

/-- A placeholder satellite used only as a default for `Option.getD`. -/
def dummySat : Satellite := ⟨0, [], [], AltData.scalar 0, none⟩

/-- A placeholder environment state used only as a default. -/
def dummyEnv : EnvState := ⟨⟨⟨[], 0⟩, []⟩, dummySat, dummySat, 0, 0⟩

/-- A placeholder step result used only as a default. -/
def dummyOut : StepOut := ⟨0, false, false, dummyEnv⟩

/-- A placeholder reset result used only as a default. -/
def dummyReset : ResetOut :=
  ⟨0, 0, ⟨0, 0, ""⟩, ⟨0, 0, ""⟩, dummySat, dummySat, dummySat, 0, 0, ⟨0⟩⟩

/-- Satellite 1 of the two-satellite antipodal constellation: parked on
the equator at longitude 0 for its single recorded step. -/
def satA : Satellite := ⟨1, [0], [0], AltData.scalar 550, some [⟨1, 2⟩]⟩

/-- Satellite 2 of the two-satellite antipodal constellation: parked on
the equator at longitude 180 for its single recorded step. -/
def satB : Satellite := ⟨2, [180], [0], AltData.scalar 550, some [⟨1, 2⟩]⟩

/-- The two-satellite antipodal constellation with one recorded step. -/
def simAB : Simulator := ⟨[(1, satA), (2, satB)], 1⟩

/-- The antipodal constellation with an empty graph cache. -/
def stAB : SimState := ⟨simAB, []⟩

/-- Satellite 1 of the four-satellite hub constellation: linked to the
three others, with two recorded steps, all positions at the origin. -/
def hub1 : Satellite :=
  ⟨1, [0, 0], [0, 0], AltData.scalar 550, some [⟨1, 2⟩, ⟨1, 3⟩, ⟨1, 4⟩]⟩

/-- Leaf satellite 2 of the hub constellation. -/
def hub2 : Satellite := ⟨2, [0, 0], [0, 0], AltData.scalar 550, none⟩

/-- Leaf satellite 3 of the hub constellation. -/
def hub3 : Satellite := ⟨3, [0, 0], [0, 0], AltData.scalar 550, none⟩

/-- Leaf satellite 4 of the hub constellation. -/
def hub4 : Satellite := ⟨4, [0, 0], [0, 0], AltData.scalar 550, none⟩

/-- The four-satellite hub constellation with two recorded steps. -/
def sim4 : Simulator := ⟨[(1, hub1), (2, hub2), (3, hub3), (4, hub4)], 2⟩

/-- The routing configuration with the source defaults. -/
def cfgMain : EnvConfig := ⟨50, 100, -100, -1, 1000⟩

/-- The routing configuration with `max_hops = 1`. -/
def cfgHop1 : EnvConfig := ⟨1, 100, -100, -1, 1000⟩

/-- The two-satellite linked constellation with two recorded steps. -/
def sim2 : Simulator :=
  ⟨[(1, ⟨1, [0, 0], [0, 0], AltData.scalar 550, some [⟨1, 2⟩]⟩),
    (2, ⟨2, [0, 0], [0, 0], AltData.scalar 550, some [⟨1, 2⟩]⟩)], 2⟩

/-- Satellite 1 of `sim2`. -/
def sat21 : Satellite := ⟨1, [0, 0], [0, 0], AltData.scalar 550, some [⟨1, 2⟩]⟩

/-- Satellite 2 of `sim2`. -/
def sat22 : Satellite := ⟨2, [0, 0], [0, 0], AltData.scalar 550, some [⟨1, 2⟩]⟩

/-- Episode state on the hub constellation: at satellite 1, target 4. -/
def envHub : EnvState := ⟨⟨sim4, []⟩, hub1, hub4, 1, 0⟩

/-- Episode state on `sim2` at the truncation boundary (`time_step = 2`
with two simulated steps). -/
def envEdge : EnvState := ⟨⟨sim2, []⟩, sat21, sat22, 2, 0⟩

/-- Episode state on `sim2` whose target is the direct neighbor. -/
def envNext : EnvState := ⟨⟨sim2, []⟩, sat21, sat22, 1, 0⟩

/-- Episode state on `sim2` that already sits on its target. -/
def envSelf : EnvState := ⟨⟨sim2, []⟩, sat21, sat21, 1, 0⟩

/-- The single-satellite constellation: every ground endpoint has the
same nearest satellite. -/
def satOne : Satellite := ⟨1, [0], [0], AltData.scalar 550, none⟩

/-- The single-satellite simulator. -/
def simOne : Simulator := ⟨[(1, satOne)], 1⟩

/-! Helper lemmas. -/

/-- Appending after a failed search continues the search on the right. -/
theorem find_append_of_none {α : Type} (p : α → Bool) (l1 l2 : List α)
    (h : l1.find? p = none) : (l1 ++ l2).find? p = l2.find? p := by
  induction l1 with
  | nil => rfl
  | cons a t ih =>
    rw [List.find?_cons] at h
    rw [List.cons_append, List.find?_cons]
    cases hp : p a with
    | true => simp [hp] at h
    | false =>
      simp only [hp] at h ⊢
      exact ih h

/-- A successful search is stable under appending on the right. -/
theorem find_append_of_some {α : Type} (p : α → Bool) (l1 l2 : List α)
    (a : α) (h : l1.find? p = some a) : (l1 ++ l2).find? p = some a := by
  induction l1 with
  | nil => simp [List.find?] at h
  | cons b t ih =>
    rw [List.find?_cons] at h
    rw [List.cons_append, List.find?_cons]
    cases hp : p b with
    | true => simpa [hp] using h
    | false =>
      simp only [hp] at h ⊢
      exact ih h

/-- Field-level description of `finishStep`. -/
theorem finishStep_spec (st : EnvState) (s2 : SimState) (cur : Satellite)
    (hop : Int) (reward : ℝ) (term : Bool) :
    (finishStep st s2 cur hop reward term).reward = reward ∧
    (finishStep st s2 cur hop reward term).state.currentSat = cur ∧
    (finishStep st s2 cur hop reward term).state.hopCount = hop ∧
    (finishStep st s2 cur hop reward term).state.timeStep = st.timeStep + 1 ∧
    (finishStep st s2 cur hop reward term).state.targetSat = st.targetSat ∧
    (finishStep st s2 cur hop reward term).truncated =
      decide (st.simState.sim.simulationSteps < st.timeStep + 1) ∧
    ((finishStep st s2 cur hop reward term).truncated = true →
      (finishStep st s2 cur hop reward term).terminated = false) ∧
    ((finishStep st s2 cur hop reward term).truncated = false →
      (finishStep st s2 cur hop reward term).terminated = term) := by
  unfold finishStep
  by_cases h : st.simState.sim.simulationSteps < st.timeStep + 1 <;> simp [h]

/-- Every successful `step` call ends in `finishStep` applied to the
incremented hop count. -/
theorem step_shape (cfg : EnvConfig) (st : EnvState) (action : Nat)
    (out : StepOut) (hout : step cfg st action = some out) :
    ∃ s2 cur reward term, out = finishStep st s2 cur (st.hopCount + 1) reward term := by
  unfold step at hout
  simp only [Option.bind_eq_some] at hout
  obtain ⟨posCur, _, hout⟩ := hout
  obtain ⟨posTgt, _, hout⟩ := hout
  obtain ⟨gs, _, hout⟩ := hout
  split at hout
  · simp only [Option.bind_eq_some] at hout
    obtain ⟨nid, _, hout⟩ := hout
    obtain ⟨newSat, _, hout⟩ := hout
    obtain ⟨posAfter, _, hout⟩ := hout
    exact ⟨_, _, _, _, (Option.some_inj.mp hout).symm⟩
  · exact ⟨_, _, _, _, (Option.some_inj.mp hout).symm⟩

/-- A `step` call whose action index is at least the neighbor count
takes the packet-drop branch: the current satellite is kept, the reward
is `reward_per_hop + reward_failure` and the pre-truncation verdict is
terminated. -/
theorem step_invalid_shape (cfg : EnvConfig) (st : EnvState) (action : Nat)
    (out : StepOut) (gp : Graph × SimState)
    (hg : getNetworkGraph st.simState
      (min st.timeStep st.simState.sim.simulationSteps) = some gp)
    (ha : (neighborsOf gp.1 st.currentSat.id).length ≤ action)
    (hout : step cfg st action = some out) :
    out = finishStep st gp.2 st.currentSat (st.hopCount + 1)
      (cfg.rewardPerHop + cfg.rewardFailure) true := by
  unfold step at hout
  simp only [Option.bind_eq_some] at hout
  obtain ⟨posCur, _, hout⟩ := hout
  obtain ⟨posTgt, _, hout⟩ := hout
  obtain ⟨gs, hgs, hout⟩ := hout
  rw [hg] at hgs
  cases hgs
  split at hout
  · omega
  · exact (Option.some_inj.mp hout).symm

/-- A `step` call with a valid action index takes the move branch: the
current satellite becomes the chosen neighbor, the reward starts from
`reward_per_hop` plus the shaping term, and the verdict follows the
success/exhaustion checks. -/
theorem step_valid_shape (cfg : EnvConfig) (st : EnvState) (action : Nat)
    (out : StepOut) (gp : Graph × SimState) (nid : Int) (nsat : Satellite)
    (pc pt pa : ℝ × ℝ × ℝ)
    (hg : getNetworkGraph st.simState
      (min st.timeStep st.simState.sim.simulationSteps) = some gp)
    (ha : (neighborsOf gp.1 st.currentSat.id).get? action = some nid)
    (hs : lookupSat st.simState.sim nid = some nsat)
    (hpc : getSatellitePosition st.simState.sim st.currentSat
      (min st.timeStep st.simState.sim.simulationSteps) = some pc)
    (hpt : getSatellitePosition st.simState.sim st.targetSat
      (min st.timeStep st.simState.sim.simulationSteps) = some pt)
    (hpa : getSatellitePosition st.simState.sim nsat
      (min st.timeStep st.simState.sim.simulationSteps) = some pa)
    (hout : step cfg st action = some out) :
    out = finishStep st gp.2 nsat (st.hopCount + 1)
      (applyVerdict cfg st.targetSat.id (st.hopCount + 1) nsat.id
        (cfg.rewardPerHop +
          (euclid pt pc - euclid pt pa) / cfg.distanceRewardFactor)).1
      (applyVerdict cfg st.targetSat.id (st.hopCount + 1) nsat.id
        (cfg.rewardPerHop +
          (euclid pt pc - euclid pt pa) / cfg.distanceRewardFactor)).2 := by
  unfold step at hout
  simp only [Option.bind_eq_some] at hout
  obtain ⟨posCur, h1, hout⟩ := hout
  rw [hpc] at h1
  cases h1
  obtain ⟨posTgt, h2, hout⟩ := hout
  rw [hpt] at h2
  cases h2
  obtain ⟨gs, hgs, hout⟩ := hout
  rw [hg] at hgs
  cases hgs
  split at hout
  · simp only [Option.bind_eq_some] at hout
    obtain ⟨nid2, h3, hout⟩ := hout
    rw [ha] at h3
    cases h3
    obtain ⟨nsat2, h4, hout⟩ := hout
    rw [hs] at h4
    cases h4
    obtain ⟨pa2, h5, hout⟩ := hout
    rw [hpa] at h5
    cases h5
    exact (Option.some_inj.mp hout).symm
  · rename_i hnot
    have hnone : (neighborsOf gp.1 st.currentSat.id).get? action = none :=
      List.get?_eq_none.mpr (by omega)
    rw [ha] at hnone
    cases hnone

/-- The two indices drawn by `npRandomChoice2` are distinct and in
range: a draw without replacement. -/
theorem npRandomChoice2_spec (r : Rng) (n i j : Nat) (r2 : Rng)
    (h : npRandomChoice2 r n = some (i, j, r2)) :
    i ≠ j ∧ i < n ∧ j < n := by
  unfold npRandomChoice2 at h
  split at h
  · cases h
  · rename_i hn
    simp only [Option.some_inj, Prod.mk.injEq] at h
    obtain ⟨hi, hj, -⟩ := h
    have h1 : r.state % n < n := Nat.mod_lt _ (by omega)
    have h2 : (r.state / n) % (n - 1) < n - 1 := Nat.mod_lt _ (by omega)
    subst hi
    by_cases hlt : (r.state / n) % (n - 1) < r.state % n
    · rw [← hj]; simp only [if_pos hlt]; omega
    · rw [← hj]; simp only [if_neg hlt]; omega

/-- Ground users with different display names are different. -/
theorem groundUser_ne_of_name {u v : GroundUser}
    (h : u.userName ≠ v.userName) : u ≠ v :=
  fun heq => h (congrArg GroundUser.userName heq)

/-- Distinct indices into the fixed ground-station catalog yield
distinct users. -/
theorem groundStations_get_ne (i j : Nat) (hij : i ≠ j) (u v : GroundUser)
    (hu : groundStations.get? i = some u)
    (hv : groundStations.get? j = some v) : u ≠ v := by
  have hlen : groundStations.length = 4 := rfl
  have hi : i < 4 := by
    by_contra hge
    have hn : groundStations.get? i = none :=
      List.get?_eq_none.mpr (by rw [hlen]; omega)
    rw [hn] at hu; cases hu
  have hj : j < 4 := by
    by_contra hge
    have hn : groundStations.get? j = none :=
      List.get?_eq_none.mpr (by rw [hlen]; omega)
    rw [hn] at hv; cases hv
  interval_cases i <;> interval_cases j <;>
    simp only [groundStations, List.get?, Option.some_inj] at hu hv <;>
    first
      | omega
      | (subst hu; subst hv;
         exact groundUser_ne_of_name (by decide))

/-- Destructuring of a successful `resetEnv`: the drawn indices come
from the seeded (or carried-over) generator, the users are read off the
catalog, the satellites are located at `time_step = 1`, and the current
satellite is the start satellite. -/
theorem resetEnv_shape (sim : Simulator) (r : Rng) (seed : Option Nat)
    (out : ResetOut) (h : resetEnv sim r seed = some out) :
    ∃ r2, npRandomChoice2
        (match seed with | some s => seedRng s | none => r)
        groundStations.length = some (out.sourceIdx, out.targetIdx, r2) ∧
      groundStations.get? out.sourceIdx = some out.sourceUser ∧
      groundStations.get? out.targetIdx = some out.targetUser ∧
      findNearestSatellite sim out.sourceUser 1 = some out.startSat ∧
      findNearestSatellite sim out.targetUser 1 = some out.targetSat ∧
      out.currentSat = out.startSat ∧ out.timeStep = 1 ∧ out.hopCount = 0 := by
  unfold resetEnv at h
  simp only [Option.bind_eq_some, Option.map_eq_some'] at h
  obtain ⟨d, hd, su, hsu, tu, htu, ss, hss, ts, hts, hout⟩ := h
  subst hout
  exact ⟨d.2.2, by simpa using hd, hsu, htu, hss, hts, rfl, rfl, rfl⟩

/-! Claim theorems. -/

/-- Claim C2: for every step call whose post-increment `time_step`
exceeds `simulation_steps`, the returned flags are `truncated = True`
and `terminated = False`, even if that same step reached the target
satellite or reached `max_hops` — truncation overrides a same-step
termination verdict. -/
theorem step_truncation_overrides (cfg : EnvConfig) (st : EnvState)
    (action : Nat) (out : StepOut) (hout : step cfg st action = some out)
    (ht : st.simState.sim.simulationSteps < st.timeStep + 1) :
    out.truncated = true ∧ out.terminated = false := by
  obtain ⟨s2, cur, reward, term, rfl⟩ := step_shape cfg st action out hout
  obtain ⟨-, -, -, -, -, htr, himp, -⟩ :=
    finishStep_spec st s2 cur (st.hopCount + 1) reward term
  have htrue : (finishStep st s2 cur (st.hopCount + 1) reward term).truncated
      = true := by rw [htr]; simpa using ht
  exact ⟨htrue, himp htrue⟩

/-- The boundary step that reaches the target satellite yet exceeds the
horizon: it is reported truncated, not terminated. -/
noncomputable def outEdge : StepOut := (step cfgMain envEdge 0).getD dummyOut

/-- Witness for claim C2 on a concrete boundary step that moves onto the
target satellite. -/
theorem step_truncation_overrides_witness :
    step cfgMain envEdge 0 = some outEdge ∧
    envEdge.simState.sim.simulationSteps < envEdge.timeStep + 1 ∧
    (outEdge.truncated = true ∧ outEdge.terminated = false) :=
  ⟨rfl, by decide,
   step_truncation_overrides cfgMain envEdge 0 outEdge rfl (by decide)⟩

/-- Claim C4: a step whose action index is at least the number of
neighbors of the current satellite returns reward exactly
`reward_per_hop + reward_failure`, reports terminated (absent
truncation), and leaves the current satellite unchanged; no shaping or
success component is applied. -/
theorem step_invalid_action_drop (cfg : EnvConfig) (st : EnvState)
    (action : Nat) (out : StepOut) (gp : Graph × SimState)
    (hg : getNetworkGraph st.simState
      (min st.timeStep st.simState.sim.simulationSteps) = some gp)
    (ha : (neighborsOf gp.1 st.currentSat.id).length ≤ action)
    (hout : step cfg st action = some out) :
    out.reward = cfg.rewardPerHop + cfg.rewardFailure ∧
    out.state.currentSat = st.currentSat ∧
    (out.truncated = false → out.terminated = true) := by
  obtain rfl := step_invalid_shape cfg st action out gp hg ha hout
  obtain ⟨hr, hc, -, -, -, -, -, hterm⟩ :=
    finishStep_spec st gp.2 st.currentSat (st.hopCount + 1)
      (cfg.rewardPerHop + cfg.rewardFailure) true
  exact ⟨hr, hc, hterm⟩

/-- The packet-drop step on the hub constellation: action 4 with only
3 live neighbors. -/
noncomputable def outHubBad : StepOut :=
  (step cfgMain envHub 4).getD dummyOut

/-- Witness for claim C4: `MAX_NEIGHBORS = 6`, the current satellite has
3 neighbors, action index 4. -/
theorem step_invalid_action_drop_witness :
    step cfgMain envHub 4 = some outHubBad ∧
    (outHubBad.reward = cfgMain.rewardPerHop + cfgMain.rewardFailure ∧
     outHubBad.state.currentSat = envHub.currentSat ∧
     (outHubBad.truncated = false → outHubBad.terminated = true)) :=
  ⟨rfl, step_invalid_action_drop cfgMain envHub 4 outHubBad _ rfl
    (by decide) rfl⟩

/-- Claim C6: every successful step call increments `hop_count` by
exactly 1 and `time_step` by exactly 1, regardless of action validity
and of the termination/truncation outcome. -/
theorem step_increments_counters (cfg : EnvConfig) (st : EnvState)
    (action : Nat) (out : StepOut) (hout : step cfg st action = some out) :
    out.state.hopCount = st.hopCount + 1 ∧
    out.state.timeStep = st.timeStep + 1 := by
  obtain ⟨s2, cur, reward, term, rfl⟩ := step_shape cfg st action out hout
  obtain ⟨-, -, hh, htt, -, -, -, -⟩ :=
    finishStep_spec st s2 cur (st.hopCount + 1) reward term
  exact ⟨hh, htt⟩

/-- A valid move on the hub constellation. -/
noncomputable def outHubMove : StepOut :=
  (step cfgMain envHub 0).getD dummyOut

/-- Witness for claim C6 on a concrete valid move. -/
theorem step_increments_counters_witness :
    step cfgMain envHub 0 = some outHubMove ∧
    (outHubMove.state.hopCount = envHub.hopCount + 1 ∧
     outHubMove.state.timeStep = envHub.timeStep + 1) :=
  ⟨rfl, step_increments_counters cfgMain envHub 0 outHubMove rfl⟩

/-- Claim C7: a graph returned by `get_network_graph` is cached under
the requested timestep; calling again returns the identical cached
object with no further state change, the underlying constellation is
untouched, and entries already in the cache are never mutated. -/
theorem getNetworkGraph_cached_stable (st : SimState) (t : Int)
    (g : Graph) (st2 : SimState)
    (h : getNetworkGraph st t = some (g, st2)) :
    getNetworkGraph st2 t = some (g, st2) ∧
    st2.sim = st.sim ∧
    cacheLookup st2.graphCache t = some g ∧
    (∀ t2 g2, cacheLookup st.graphCache t2 = some g2 →
      cacheLookup st2.graphCache t2 = some g2) := by
  unfold getNetworkGraph at h
  cases hc : cacheLookup st.graphCache t with
  | some g0 =>
    rw [hc] at h
    injection h with h
    injection h with h1 h2
    subst h1; subst h2
    refine ⟨?_, rfl, hc, fun t2 g2 hg2 => hg2⟩
    unfold getNetworkGraph
    rw [hc]
  | none =>
    rw [hc] at h
    simp only [Option.map_eq_some'] at h
    obtain ⟨gb, hb, heq⟩ := h
    injection heq with h1 h2
    subst h1; subst h2
    have hfind : st.graphCache.find? (fun p => p.1 = t) = none := by
      simpa [cacheLookup, Option.map_eq_none'] using hc
    have hlook : cacheLookup (st.graphCache ++ [(t, gb)]) t = some gb := by
      unfold cacheLookup
      rw [find_append_of_none _ _ _ hfind]
      simp [List.find?]
    refine ⟨?_, rfl, hlook, ?_⟩
    · unfold getNetworkGraph
      rw [show ({ st with graphCache := st.graphCache ++ [(t, gb)] } :
        SimState).graphCache = st.graphCache ++ [(t, gb)] from rfl, hlook]
    · intro t2 g2 hg2
      unfold cacheLookup at hg2 ⊢
      simp only [Option.map_eq_some'] at hg2
      obtain ⟨pr, hpr, hpr2⟩ := hg2
      rw [find_append_of_some _ _ _ _ hpr]
      simpa using hpr2

/-- A one-node graph used to pre-populate the cache. -/
def gHit : Graph := ⟨[1], []⟩

/-- A simulator state whose cache already holds the graph for step 1. -/
def stHit : SimState := ⟨simOne, [(1, gHit)]⟩

/-- Witness for claim C7 on a concrete cache hit. -/
theorem getNetworkGraph_cached_stable_witness :
    getNetworkGraph stHit 1 = some (gHit, stHit) ∧
    cacheLookup stHit.graphCache 1 = some gHit :=
  ⟨(getNetworkGraph_cached_stable stHit 1 gHit stHit rfl).1,
   (getNetworkGraph_cached_stable stHit 1 gHit stHit rfl).2.2.1⟩

/-- The haversine expression produced for an edge of a constellation
whose two endpoint satellites sit at longitude 0, latitude 0, divided by
the speed of light: the edge delay weight. -/
noncomputable def wZero : ℝ :=
  6731 * (2 * Real.arcsin (Real.sqrt (Real.sin ((radians 0 - radians 0) / 2) ^ 2 +
    Real.cos (radians 0) * Real.cos (radians 0) *
      Real.sin ((radians 0 - radians 0) / 2) ^ 2))) / 299792.458

/-- The graph the builder produces for `sim2` (both satellites at the
origin). -/
noncomputable def graphSim2 : Graph := ⟨[1, 2], [(1, 2, wZero)]⟩

/-- The graph the builder produces for `sim4` (hub satellite linked to
the three leaves, all at the origin). -/
noncomputable def graphSim4 : Graph :=
  ⟨[1, 2, 3, 4], [(1, 2, wZero), (1, 3, wZero), (1, 4, wZero)]⟩

/-- The origin position shared by all `sim2`/`sim4` satellites. -/
def posZ : ℝ × ℝ × ℝ := ((0 : ℝ), (0 : ℝ), (550 : ℝ))

/-- The shaping-only reward of a move between coincident positions. -/
noncomputable def rewardShape (cfg : EnvConfig) : ℝ :=
  cfg.rewardPerHop + (euclid posZ posZ - euclid posZ posZ) / cfg.distanceRewardFactor

/-- The step actually taken at the C5 counterexample input: a valid move
(one neighbor, action 0) that trips the exhaustion check. -/
noncomputable def outSelfHop : StepOut :=
  ⟨rewardShape cfgHop1 + cfgHop1.rewardFailure, true, false,
   ⟨⟨sim2, [(1, graphSim2)]⟩, sat22, sat21, 2, 1⟩⟩

/-- Counterexample to claim C5 as stated: with `max_hops = 1`, a valid
move to a non-target neighbor returns
`reward_per_hop + shaping + reward_failure = -101`, not the claimed
`reward_per_hop + shaping = -1` — the exhaustion check can add
`reward_failure` on a valid move. -/
theorem step_valid_reward_cex :
    step cfgHop1 envSelf 0 = some outSelfHop ∧
    outSelfHop.reward = -101 ∧
    rewardShape cfgHop1 = -1 ∧
    (-101 : ℝ) ≠ -1 := by
  have h0 : euclid posZ posZ = 0 := by
    simp [euclid, posZ]
  have hshape : rewardShape cfgHop1 = -1 := by
    unfold rewardShape
    rw [h0]
    show (-1 : ℝ) + (0 - 0) / 1000 = -1
    norm_num
  refine ⟨rfl, ?_, hshape, by norm_num⟩
  show rewardShape cfgHop1 + cfgHop1.rewardFailure = -101
  rw [hshape]
  show (-1 : ℝ) + -100 = -101
  norm_num

/-- Claim C5 amended: a valid action moves the current satellite to the
chosen neighbor and the reward is `reward_per_hop` plus the shaping term
plus exactly one extra component: `reward_success` when the neighbor is
the target, else `reward_failure` when the incremented hop count reaches
`max_hops`, else nothing; termination (absent truncation) holds exactly
in the first two cases. -/
theorem step_valid_move (cfg : EnvConfig) (st : EnvState) (action : Nat)
    (out : StepOut) (gp : Graph × SimState) (nid : Int) (nsat : Satellite)
    (pc pt pa : ℝ × ℝ × ℝ)
    (hg : getNetworkGraph st.simState
      (min st.timeStep st.simState.sim.simulationSteps) = some gp)
    (ha : (neighborsOf gp.1 st.currentSat.id).get? action = some nid)
    (hs : lookupSat st.simState.sim nid = some nsat)
    (hpc : getSatellitePosition st.simState.sim st.currentSat
      (min st.timeStep st.simState.sim.simulationSteps) = some pc)
    (hpt : getSatellitePosition st.simState.sim st.targetSat
      (min st.timeStep st.simState.sim.simulationSteps) = some pt)
    (hpa : getSatellitePosition st.simState.sim nsat
      (min st.timeStep st.simState.sim.simulationSteps) = some pa)
    (hout : step cfg st action = some out) :
    out.state.currentSat = nsat ∧
    out.reward = cfg.rewardPerHop +
      (euclid pt pc - euclid pt pa) / cfg.distanceRewardFactor +
      (if nsat.id = st.targetSat.id then cfg.rewardSuccess
       else if cfg.maxHops ≤ st.hopCount + 1 then cfg.rewardFailure
       else 0) ∧
    (out.truncated = false →
      (out.terminated = true ↔
        (nsat.id = st.targetSat.id ∨ cfg.maxHops ≤ st.hopCount + 1))) := by
  obtain rfl :=
    step_valid_shape cfg st action out gp nid nsat pc pt pa
      hg ha hs hpc hpt hpa hout
  obtain ⟨hr, hc, -, -, -, -, -, hterm⟩ :=
    finishStep_spec st gp.2 nsat (st.hopCount + 1) _ _
  refine ⟨hc, ?_, ?_⟩
  · rw [hr]
    unfold applyVerdict
    by_cases h1 : nsat.id = st.targetSat.id
    · simp [h1]
    · by_cases h2 : cfg.maxHops ≤ st.hopCount + 1 <;> simp [h1, h2]
  · intro htr
    rw [hterm htr]
    unfold applyVerdict
    by_cases h1 : nsat.id = st.targetSat.id
    · simp [h1]
    · by_cases h2 : cfg.maxHops ≤ st.hopCount + 1 <;> simp [h1, h2]

/-- The step taken at the C5 witness input: the chosen neighbor is the
target satellite, so the success component applies and the episode
terminates. -/
noncomputable def outNext : StepOut :=
  ⟨rewardShape cfgMain + cfgMain.rewardSuccess, true, false,
   ⟨⟨sim2, [(1, graphSim2)]⟩, sat22, sat22, 2, 1⟩⟩

/-- Witness for amended claim C5 on a concrete move onto the target:
the success component is applied and the step terminates. -/
theorem step_valid_move_witness :
    step cfgMain envNext 0 = some outNext ∧
    (outNext.state.currentSat = sat22 ∧
     outNext.reward = cfgMain.rewardPerHop +
       (euclid posZ posZ - euclid posZ posZ) / cfgMain.distanceRewardFactor +
       (if sat22.id = envNext.targetSat.id then cfgMain.rewardSuccess
        else if cfgMain.maxHops ≤ envNext.hopCount + 1 then
          cfgMain.rewardFailure
        else 0) ∧
     (outNext.truncated = false →
       (outNext.terminated = true ↔
         (sat22.id = envNext.targetSat.id ∨
           cfgMain.maxHops ≤ envNext.hopCount + 1)))) :=
  ⟨rfl, step_valid_move cfgMain envNext 0 outNext _ 2 sat22 posZ posZ posZ
    rfl rfl rfl rfl rfl rfl rfl⟩

/-- The reset performed on the single-satellite constellation: both
drawn endpoints get the only satellite as nearest, so the episode starts
on its target. -/
def resetOne : ResetOut :=
  ⟨0, 1, ⟨51.5, -0.1, "London"⟩, ⟨40.7, -74.0, "NewYork"⟩,
   satOne, satOne, satOne, 1, 0, ⟨0⟩⟩

/-- Claim C10: reset does not guarantee that the start satellite differs
from the target satellite — on a constellation where both drawn ground
endpoints share the same nearest satellite, reset returns normally with
`current = target` and fresh counters (its return carries no reward and
no flags) — and the success verdict inside `step` fires only through a
valid move, never for a packet that merely starts on the target: moving
to a non-target neighbor from the target yields no success component. -/
theorem reset_allows_start_eq_target :
    (resetEnv simOne ⟨0⟩ (some 0) = some resetOne ∧
     resetOne.currentSat = resetOne.targetSat ∧
     resetOne.timeStep = 1 ∧ resetOne.hopCount = 0) ∧
    (∀ (cfg : EnvConfig) (st : EnvState) (action : Nat) (out : StepOut)
       (gp : Graph × SimState) (nid : Int) (nsat : Satellite)
       (pc pt pa : ℝ × ℝ × ℝ),
      st.currentSat.id = st.targetSat.id →
      getNetworkGraph st.simState
        (min st.timeStep st.simState.sim.simulationSteps) = some gp →
      (neighborsOf gp.1 st.currentSat.id).get? action = some nid →
      lookupSat st.simState.sim nid = some nsat →
      nsat.id ≠ st.targetSat.id →
      getSatellitePosition st.simState.sim st.currentSat
        (min st.timeStep st.simState.sim.simulationSteps) = some pc →
      getSatellitePosition st.simState.sim st.targetSat
        (min st.timeStep st.simState.sim.simulationSteps) = some pt →
      getSatellitePosition st.simState.sim nsat
        (min st.timeStep st.simState.sim.simulationSteps) = some pa →
      step cfg st action = some out →
      out.reward = cfg.rewardPerHop +
        (euclid pt pc - euclid pt pa) / cfg.distanceRewardFactor +
        (if cfg.maxHops ≤ st.hopCount + 1 then cfg.rewardFailure
         else 0) ∧
      (out.truncated = false →
        (out.terminated = true ↔ cfg.maxHops ≤ st.hopCount + 1))) := by
  constructor
  · exact ⟨rfl, rfl, rfl, rfl⟩
  · intro cfg st action out gp nid nsat pc pt pa
      hco hg ha hs hna hpc hpt hpa hout
    obtain rfl :=
      step_valid_shape cfg st action out gp nid nsat pc pt pa
        hg ha hs hpc hpt hpa hout
    obtain ⟨hr, -, -, -, -, -, -, hterm⟩ :=
      finishStep_spec st gp.2 nsat (st.hopCount + 1) _ _
    constructor
    · rw [hr]
      unfold applyVerdict
      by_cases h2 : cfg.maxHops ≤ st.hopCount + 1 <;> simp [hna, h2]
    · intro htr
      rw [hterm htr]
      unfold applyVerdict
      by_cases h2 : cfg.maxHops ≤ st.hopCount + 1 <;> simp [hna, h2]

/-- The step taken at the C10 witness input: a packet that starts on its
target and moves away, collecting only the per-hop and shaping rewards. -/
noncomputable def outSelfMove : StepOut :=
  ⟨rewardShape cfgMain, false, false,
   ⟨⟨sim2, [(1, graphSim2)]⟩, sat22, sat21, 2, 1⟩⟩

/-- Witness for claim C10: starting on the target and moving to the
non-target neighbor yields no success component and no termination. -/
theorem reset_allows_start_eq_target_witness :
    step cfgMain envSelf 0 = some outSelfMove ∧
    (outSelfMove.reward = cfgMain.rewardPerHop +
      (euclid posZ posZ - euclid posZ posZ) / cfgMain.distanceRewardFactor +
      (if cfgMain.maxHops ≤ envSelf.hopCount + 1 then cfgMain.rewardFailure
       else 0) ∧
     (outSelfMove.truncated = false →
       (outSelfMove.terminated = true ↔
         cfgMain.maxHops ≤ envSelf.hopCount + 1))) :=
  ⟨rfl, reset_allows_start_eq_target.2 cfgMain envSelf 0 outSelfMove
    _ 2 sat22 posZ posZ posZ rfl rfl rfl rfl (by decide) rfl rfl rfl rfl⟩

/-- Claim C8: two reset calls with the same seed — regardless of the
generator state each call starts from — draw the identical
(source, target) ground-endpoint pair, two distinct endpoints without
replacement from the fixed catalog, and locate the identical start and
target satellites. -/
theorem reset_seed_reproducible (sim : Simulator) (r1 r2 : Rng) (s : Nat) :
    resetEnv sim r1 (some s) = resetEnv sim r2 (some s) ∧
    (∀ out, resetEnv sim r1 (some s) = some out →
      out.sourceIdx ≠ out.targetIdx ∧
      out.sourceUser ≠ out.targetUser ∧
      groundStations.get? out.sourceIdx = some out.sourceUser ∧
      groundStations.get? out.targetIdx = some out.targetUser ∧
      findNearestSatellite sim out.sourceUser 1 = some out.startSat ∧
      findNearestSatellite sim out.targetUser 1 = some out.targetSat ∧
      out.currentSat = out.startSat) := by
  refine ⟨rfl, ?_⟩
  intro out h
  obtain ⟨rr, hd, hsu, htu, hss, hts, hcur, -, -⟩ :=
    resetEnv_shape sim r1 (some s) out h
  obtain ⟨hne, -, -⟩ := npRandomChoice2_spec _ _ _ _ _ hd
  exact ⟨hne, groundStations_get_ne _ _ hne _ _ hsu htu, hsu, htu,
    hss, hts, hcur⟩

/-- Witness for claim C8: two seeded resets on the single-satellite
constellation from different generator states coincide, and the drawn
pair is London/NewYork with the lone satellite at both ends. -/
theorem reset_seed_reproducible_witness :
    resetEnv simOne ⟨7⟩ (some 0) = resetEnv simOne ⟨99⟩ (some 0) ∧
    (resetOne.sourceIdx ≠ resetOne.targetIdx ∧
     resetOne.sourceUser ≠ resetOne.targetUser ∧
     groundStations.get? resetOne.sourceIdx = some resetOne.sourceUser ∧
     groundStations.get? resetOne.targetIdx = some resetOne.targetUser ∧
     findNearestSatellite simOne resetOne.sourceUser 1 =
       some resetOne.startSat ∧
     findNearestSatellite simOne resetOne.targetUser 1 =
       some resetOne.targetSat ∧
     resetOne.currentSat = resetOne.startSat) :=
  ⟨(reset_seed_reproducible simOne ⟨7⟩ ⟨99⟩ 0).1,
   (reset_seed_reproducible simOne ⟨7⟩ ⟨99⟩ 0).2 resetOne rfl⟩

/-- Negative Python indices read relative to the end of the list. -/
theorem pyGet_negative {α : Type} (l : List α) (i : Int) (hneg : i < 0)
    (hin : 0 ≤ i + l.length) :
    pyGet l i = l.get? (i + (l.length : Int)).toNat := by
  unfold pyGet
  rw [if_neg (by omega), if_pos hin]

/-- Unfolding equation for `getSatellitePosition`. -/
theorem getSatellitePosition_eq (sim : Simulator) (sat : Satellite)
    (t : Int) :
    getSatellitePosition sim sat t =
      ((pyGet sat.longitude (min t sim.simulationSteps - 1)).bind fun lon =>
       (pyGet sat.latitude (min t sim.simulationSteps - 1)).bind fun lat =>
       (match sat.altitude with
        | AltData.series l => pyGet l (min t sim.simulationSteps - 1)
        | AltData.scalar a => some a).map fun alt => (lon, lat, alt)) := rfl

/-- Counterexample to claim C9 as stated: at `t = -1` on a satellite
with a single recorded step, the negative index `min(t, steps) - 1 = -2`
is out of range even for Python's end-relative indexing, so the lookup
raises instead of returning data from the end of the series. -/
theorem getSatellitePosition_negative_cex :
    ((-1 : Int) ≤ 0) ∧ getSatellitePosition simOne satOne (-1) = none :=
  ⟨by decide, rfl⟩

/-- Claim C9 amended: for every timestep `t ≤ 0` that stays within one
series length of the origin (`1 - len ≤ t`), the computed array index
`min(t, simulation_steps) - 1` is negative and Python's end-relative
indexing returns the element at offset `len + t - 1`, i.e. position data
from the end of the series — for `t = 0`, the last step's position —
while for `t < 1 - len` the lookup raises an index error instead. -/
theorem getSatellitePosition_negative_time (sim : Simulator)
    (sat : Satellite) (t : Int) (a : ℝ)
    (ht : t ≤ 0)
    (hsteps : 0 ≤ sim.simulationSteps)
    (hrange : 1 - (sat.longitude.length : Int) ≤ t)
    (hlat : sat.latitude.length = sat.longitude.length)
    (halt : sat.altitude = AltData.scalar a) :
    ∃ lon lat,
      sat.longitude.get? (t - 1 + (sat.longitude.length : Int)).toNat =
        some lon ∧
      sat.latitude.get? (t - 1 + (sat.latitude.length : Int)).toNat =
        some lat ∧
      getSatellitePosition sim sat t = some (lon, lat, a) ∧
      (t = 0 → sat.longitude.getLast? = some lon) := by
  have hmin : min t sim.simulationSteps = t := min_eq_left (le_trans ht hsteps)
  have hidx : (t - 1 + (sat.longitude.length : Int)).toNat <
      sat.longitude.length := by omega
  have hidx2 : (t - 1 + (sat.latitude.length : Int)).toNat <
      sat.latitude.length := by omega
  refine ⟨sat.longitude.get ⟨_, hidx⟩, sat.latitude.get ⟨_, hidx2⟩,
    List.get?_eq_get hidx, List.get?_eq_get hidx2, ?_, ?_⟩
  · rw [getSatellitePosition_eq, hmin, halt,
      pyGet_negative sat.longitude (t - 1) (by omega) (by omega),
      pyGet_negative sat.latitude (t - 1) (by omega) (by omega),
      List.get?_eq_get hidx, List.get?_eq_get hidx2]
    rfl
  · intro h0
    subst h0
    rw [List.getLast?_eq_getElem?, ← List.get?_eq_getElem?,
      show sat.longitude.length - 1 =
        ((0 : Int) - 1 + (sat.longitude.length : Int)).toNat by omega,
      List.get?_eq_get hidx]

/-- Witness for amended claim C9 at `t = 0` on the single-satellite
constellation: the position served is the last (and only) recorded one. -/
theorem getSatellitePosition_negative_time_witness :
    ∃ lon lat,
      satOne.longitude.get?
        ((0 : Int) - 1 + (satOne.longitude.length : Int)).toNat = some lon ∧
      satOne.latitude.get?
        ((0 : Int) - 1 + (satOne.latitude.length : Int)).toNat = some lat ∧
      getSatellitePosition simOne satOne 0 = some (lon, lat, 550) ∧
      ((0 : Int) = 0 → satOne.longitude.getLast? = some lon) :=
  getSatellitePosition_negative_time simOne satOne 0 550 (by decide)
    (by decide) (by decide) rfl rfl

/-- Counterexample to claim C3 as stated: `get_network_graph` does not
clamp the requested timestep.  At `t = -1` on the antipodal two-satellite
constellation the inner position lookup raises, so the call errors; and
after a request for `t = 5` (past the horizon of 1) nothing is cached
under the claimed clamped key 1. -/
theorem getNetworkGraph_no_clamp_cex :
    ((-1 : Int) ≤ 0 ∧ getNetworkGraph stAB (-1) = none) ∧
    (getNetworkGraph stAB 5).map
      (fun p => cacheLookup p.2.graphCache 1) = some none :=
  ⟨⟨by decide, rfl⟩, rfl⟩

/-- Claim C3 amended: `get_network_graph` keys its cache by the raw
requested timestep, with no clamping before the lookup; because every
position read inside the build clamps from above, any request at or past
the horizon builds exactly the last valid step's graph content (cached
under its own key), while timesteps at or below 0 are not clamped from
below and may raise. -/
theorem getNetworkGraph_horizon_content (st : SimState) (t : Int)
    (hst : st.sim.simulationSteps ≤ t) :
    buildNetworkGraph st.sim t =
      buildNetworkGraph st.sim st.sim.simulationSteps ∧
    (cacheLookup st.graphCache t = none → ∀ g st2,
      getNetworkGraph st t = some (g, st2) →
      cacheLookup st2.graphCache t = some g ∧
      buildNetworkGraph st.sim t = some g) := by
  constructor
  · have hd : ∀ s1 s2 : Satellite, distanceBetweenSats st.sim s1 s2 t =
        distanceBetweenSats st.sim s1 s2 st.sim.simulationSteps := by
      intro s1 s2
      unfold distanceBetweenSats
      rw [min_eq_right hst, min_self]
    unfold buildNetworkGraph
    simp only [hd]
  · intro hc g st2 h
    unfold getNetworkGraph at h
    rw [hc] at h
    simp only [Option.map_eq_some'] at h
    obtain ⟨gb, hb, heq⟩ := h
    injection heq with h1 h2
    subst h1; subst h2
    have hfind : st.graphCache.find? (fun p => p.1 = t) = none := by
      simpa [cacheLookup, Option.map_eq_none'] using hc
    constructor
    · unfold cacheLookup
      rw [show ({ st with graphCache := st.graphCache ++ [(t, gb)] } :
        SimState).graphCache = st.graphCache ++ [(t, gb)] from rfl]
      rw [find_append_of_none _ _ _ hfind]
      simp [List.find?]
    · exact hb

/-- The haversine expression produced for the edge of the antipodal
constellation (longitudes 0 and 180, both latitudes 0), divided by the
speed of light. -/
noncomputable def wAB : ℝ :=
  6731 * (2 * Real.arcsin (Real.sqrt (Real.sin ((radians 0 - radians 0) / 2) ^ 2 +
    Real.cos (radians 0) * Real.cos (radians 0) *
      Real.sin ((radians 180 - radians 0) / 2) ^ 2))) / 299792.458

/-- The graph the builder produces for the antipodal constellation. -/
noncomputable def graphAB : Graph := ⟨[1, 2], [(1, 2, wAB)]⟩

/-- Witness for amended claim C3: a request at `t = 5` on the antipodal
constellation (horizon 1) builds the step-1 graph content and caches it
under the raw key 5. -/
theorem getNetworkGraph_horizon_content_witness :
    buildNetworkGraph simAB 5 = buildNetworkGraph simAB 1 ∧
    getNetworkGraph stAB 5 = some (graphAB, ⟨simAB, [(5, graphAB)]⟩) ∧
    cacheLookup [(5, graphAB)] 5 = some graphAB ∧
    buildNetworkGraph simAB 5 = some graphAB := by
  have h := getNetworkGraph_horizon_content stAB 5 (by decide)
  have hsome : getNetworkGraph stAB 5 =
      some (graphAB, ⟨simAB, [(5, graphAB)]⟩) := rfl
  obtain ⟨hcache, hbuild⟩ :=
    h.2 rfl graphAB ⟨simAB, [(5, graphAB)]⟩ hsome
  exact ⟨h.1, hsome, hcache, hbuild⟩

/-- The central angle of the antipodal pair as the haversine formula
computes it. -/
noncomputable def angleAB : ℝ :=
  2 * Real.arcsin (Real.sqrt (Real.sin ((radians 0 - radians 0) / 2) ^ 2 +
    Real.cos (radians 0) * Real.cos (radians 0) *
      Real.sin ((radians 180 - radians 0) / 2) ^ 2))

/-- Claim C1 (code bug): for the antipodal equatorial pair the code's
`_distance_between_sats` returns `6731 * pi` km and the builder weights
the edge with `6731 * pi / 299792.458` s, while the haversine distance
with the spec's authoritative Earth radius `R = 6371` km is
`6371 * pi` km; the two differ, so the edge weight is not the claimed
haversine-with-R-6371 value divided by the speed of light — the source
multiplies by 6731 although its own inline comment states the Earth
radius is about 6371 km. -/
theorem distance_uses_wrong_radius :
    distanceBetweenSats simAB satA satB 1 = some (6731 * Real.pi) ∧
    haversineDistanceSpec 0 0 180 0 = 6371 * Real.pi ∧
    (buildNetworkGraph simAB 1).map Graph.edges =
      some [(1, 2, 6731 * Real.pi / 299792.458)] ∧
    (6731 : ℝ) * Real.pi ≠ 6371 * Real.pi := by
  have hr0 : radians 0 = 0 := by simp [radians]
  have hr180 : radians 180 = Real.pi := by
    show (180 : ℝ) * Real.pi / 180 = Real.pi
    ring
  have hangle : angleAB = Real.pi := by
    unfold angleAB
    rw [hr0, hr180]
    rw [show (Real.pi - 0) / 2 = Real.pi / 2 by ring,
      show ((0 : ℝ) - 0) / 2 = 0 by ring]
    rw [Real.sin_zero, Real.cos_zero, Real.sin_pi_div_two]
    norm_num [Real.sqrt_one, Real.arcsin_one]
    ring
  have hne : (6731 : ℝ) * Real.pi ≠ 6371 * Real.pi := by
    intro h
    have h2 := mul_right_cancel₀ Real.pi_ne_zero h
    norm_num at h2
  refine ⟨?_, ?_, ?_, hne⟩
  · rw [show distanceBetweenSats simAB satA satB 1 =
      some (6731 * angleAB) from rfl, hangle]
  · rw [show haversineDistanceSpec 0 0 180 0 = 6371 * angleAB from rfl,
      hangle]
  · rw [show (buildNetworkGraph simAB 1).map Graph.edges =
      some [(1, 2, 6731 * angleAB / 299792.458)] from rfl, hangle]

end SatGym
